import Mathlib

/-!
Shallow embedding of the prompt-optimizer backend core: the multi-provider
dispatch-and-aggregate routine of the Express route
POST /api/prompts/test (backend/server.js), together with the two provider
adapters openaiService.testPrompt (backend/services/openai.js) and
anthropicService.testPrompt (backend/services/anthropic.js).

JavaScript strings are modelled as Lean String; the JS string operations
used by the code (startsWith, includes, trim) are modelled structurally on
the character list. JS numbers are modelled as Rat (costs, random draws)
and Nat (token counts, millisecond times); Math.round and toFixed(6) are
modelled as exact rounding on Rat. Nondeterministic inputs of the code
(Math.random draws, Date.now elapsed times, timestamps, and the outcome of
the upstream OpenAI API call) are supplied through explicit environment
records, one per loop iteration.
-/

/-- Model of JS String.prototype.startsWith: the argument is a prefix of
the receiver. -/
def jsStartsWith (s p : String) : Bool := decide (p.toList <+: s.toList)

/-- Model of JS String.prototype.includes: the argument occurs as a
contiguous substring of the receiver. -/
def jsIncludes (s sub : String) : Bool := decide (sub.toList <:+: s.toList)

/-- Model of JS String.prototype.trim: drop whitespace from both ends. -/
def jsTrim (s : String) : String :=
  ⟨((s.toList.dropWhile Char.isWhitespace).reverse.dropWhile Char.isWhitespace).reverse⟩

/-- Model of JS String.prototype.substring(0, n): take the first n
characters. -/
def jsSubstringTo (s : String) (n : Nat) : String := ⟨s.toList.take n⟩

/-- Model of JS Math.round on a nonnegative rational:
Math.round(x) = floor(x + 0.5). -/
def jsRound (x : ℚ) : ℤ := Int.floor (x + 1 / 2)

/-- Model of JS Number.prototype.toFixed(6) followed by parseFloat:
round to six decimal places. -/
def round6 (x : ℚ) : ℚ := (Int.floor (x * 1000000 + 1 / 2) : ℚ) / 1000000

/-- Normalized per-model result. Success variant has success = true with
response/token/cost fields populated; failure variant has success = false
with errorMessage (the JS field named error) and possibly errorCode.
Fields that a given branch of the source does not set are none. -/
structure ModelResult where
  success : Bool
  model : String
  provider : String
  prompt : String
  response : Option String
  errorMessage : Option String
  errorCode : Option String
  responseTimeMs : Nat
  tokensPrompt : Option Nat
  tokensCompletion : Option Nat
  tokensTotal : Option Nat
  costInput : Option ℚ
  costOutput : Option ℚ
  costTotal : Option ℚ
  timestamp : Nat
  deriving DecidableEq

/-- Usage block of an OpenAI chat-completions response; each field may be
absent, mirroring usage.prompt_tokens etc. guarded by fallbacks. -/
structure Usage where
  prompt_tokens : Option Nat
  completion_tokens : Option Nat
  total_tokens : Option Nat
  deriving DecidableEq

/-- Abstraction of a successful OpenAI chat-completions response: the text
reached by response.choices[0]?.message?.content and the optional usage. -/
structure ApiResponse where
  content : Option String
  usage : Option Usage
  deriving DecidableEq

/-- Environment of one openaiService.testPrompt invocation: the three
Math.random draws of the mock branch, the outcome of the awaited
openai.chat.completions.create call (an error carries error.message), the
wall-clock elapsed milliseconds, and the timestamp. -/
structure OpenAIEnv where
  rand1 : ℚ
  rand2 : ℚ
  rand3 : ℚ
  apiOutcome : Except String ApiResponse
  elapsedMs : Nat
  timestamp : Nat

/-- Environment of one anthropicService.testPrompt invocation: the three
Math.random draws and the timestamp. Both branches of the source are
simulated responses, so no API outcome is involved. -/
structure AnthropicEnv where
  rand1 : ℚ
  rand2 : ℚ
  rand3 : ℚ
  timestamp : Nat

/-- Process-wide configuration: whether each provider client was
initialized from a real API key at startup. -/
structure Config where
  openaiKey : Bool
  anthropicKey : Bool

/-- MODEL_PRICING lookup of backend/services/openai.js with the source
fallback MODEL_PRICING[model] || MODEL_PRICING[the 3.5 turbo id]:
(input, output) price per 1K tokens. -/
def openaiPricing (model : String) : ℚ × ℚ :=
  if model = "gpt-3.5-turbo" then (1 / 1000, 2 / 1000)
  else if model = "gpt-4" then (1 / 100, 3 / 100)
  else if model = "gpt-4-turbo" then (1 / 100, 3 / 100)
  else (1 / 1000, 2 / 1000)

/-- Mock response text of the OpenAI adapter mock branch. -/
def openaiMockText (model prompt : String) : String :=
  "Mock response from " ++ model ++
    ": This would be a real AI response if you had configured your OpenAI API key. Your prompt was: \"" ++
    jsSubstringTo prompt 50 ++ (if prompt.length > 50 then "..." else "") ++ "\""

/-- Mock response text of the Anthropic adapter mock branch. -/
def anthropicMockText (model prompt : String) : String :=
  "Mock response from " ++ model ++
    ": This would be a real Claude response if you had configured your Anthropic API key. Your prompt was: \"" ++
    jsSubstringTo prompt 50 ++ (if prompt.length > 50 then "..." else "") ++ "\""

/-- Mock response text of the Anthropic adapter live branch (the real API
call is not implemented; the source returns a second simulated success). -/
def anthropicLiveMockText (prompt : String) : String :=
  "Mock Claude response: I understand you want me to respond to \"" ++
    jsSubstringTo prompt 30 ++
    "...\" - this would be a real Claude response with proper API integration."

/-- Embedding of openaiService.testPrompt. With no API key the mock branch
returns a simulated success built from random draws; with a key the
awaited API call either yields a success result with computed costs or is
caught, producing the failure variant with the error message. -/
def openaiTestPrompt (hasKey : Bool) (env : OpenAIEnv) (prompt model : String) : ModelResult :=
  if !hasKey then
    { success := true, model := model, provider := "OpenAI", prompt := prompt,
      response := some (openaiMockText model prompt),
      errorMessage := none, errorCode := none,
      responseTimeMs := (jsRound (1000 + env.rand1 * 1500)).toNat,
      tokensPrompt := none, tokensCompletion := none,
      tokensTotal := some ((Int.floor (env.rand2 * 200)).toNat + 50),
      costInput := none, costOutput := none,
      costTotal := some (round6 (env.rand3 * (1 / 100))),
      timestamp := env.timestamp }
  else
    match env.apiOutcome with
    | Except.ok resp =>
        let usage := resp.usage.getD ⟨none, none, none⟩
        let pricing := openaiPricing model
        let inputCost : ℚ := (usage.prompt_tokens.getD 0 : ℚ) * pricing.1 / 1000
        let outputCost : ℚ := (usage.completion_tokens.getD 0 : ℚ) * pricing.2 / 1000
        { success := true, model := model, provider := "OpenAI", prompt := prompt,
          response := some (resp.content.getD "No response generated"),
          errorMessage := none, errorCode := none,
          responseTimeMs := env.elapsedMs,
          tokensPrompt := some (usage.prompt_tokens.getD 0),
          tokensCompletion := some (usage.completion_tokens.getD 0),
          tokensTotal := some (usage.total_tokens.getD 0),
          costInput := some (round6 inputCost),
          costOutput := some (round6 outputCost),
          costTotal := some (round6 (inputCost + outputCost)),
          timestamp := env.timestamp }
    | Except.error msg =>
        { success := false, model := model, provider := "OpenAI", prompt := prompt,
          response := none,
          errorMessage := some msg, errorCode := none,
          responseTimeMs := env.elapsedMs,
          tokensPrompt := none, tokensCompletion := none, tokensTotal := none,
          costInput := none, costOutput := none, costTotal := none,
          timestamp := env.timestamp }

/-- Embedding of anthropicService.testPrompt. Both the keyless branch and
the keyed branch of the source return a simulated success; nothing in the
try block can fail, so the catch branch is unreachable. -/
def anthropicTestPrompt (hasKey : Bool) (env : AnthropicEnv) (prompt model : String) : ModelResult :=
  if !hasKey then
    { success := true, model := model, provider := "Anthropic", prompt := prompt,
      response := some (anthropicMockText model prompt),
      errorMessage := none, errorCode := none,
      responseTimeMs := (jsRound (1200 + env.rand1 * 1800)).toNat,
      tokensPrompt := none, tokensCompletion := none,
      tokensTotal := some ((Int.floor (env.rand2 * 250)).toNat + 60),
      costInput := none, costOutput := none,
      costTotal := some (round6 (env.rand3 * (2 / 100))),
      timestamp := env.timestamp }
  else
    { success := true, model := model, provider := "Anthropic", prompt := prompt,
      response := some (anthropicLiveMockText prompt),
      errorMessage := none, errorCode := none,
      responseTimeMs := (jsRound (1200 + env.rand1 * 1800)).toNat,
      tokensPrompt := none, tokensCompletion := none,
      tokensTotal := some ((Int.floor (env.rand2 * 250)).toNat + 60),
      costInput := none, costOutput := none,
      costTotal := some (round6 (env.rand3 * (2 / 100))),
      timestamp := env.timestamp }

/-- Record of one adapter invocation made by the dispatcher, used to state
which adapter (if any) a model id was routed to. -/
inductive AdapterCall where
  | openaiCall (prompt model : String)
  | anthropicCall (prompt model : String)
  deriving DecidableEq

/-- Per-iteration environment of the dispatch loop: one environment for
each adapter that could be invoked at this iteration, plus the timestamp
the dispatcher itself would stamp on an unsupported-model failure. -/
structure StepEnv where
  openai : OpenAIEnv
  anthropic : AnthropicEnv
  timestamp : Nat

/-- Body of the dispatch loop of POST /api/prompts/test: route one model
id by the prefix classifier and produce its ModelResult together with the
list of adapter invocations made (empty for an unsupported id). -/
def routeModel (cfg : Config) (env : StepEnv) (prompt modelId : String) :
    ModelResult × List AdapterCall :=
  if jsStartsWith modelId "gpt-" || jsIncludes modelId "gpt" then
    (openaiTestPrompt cfg.openaiKey env.openai prompt modelId,
     [AdapterCall.openaiCall prompt modelId])
  else if jsStartsWith modelId "claude-" then
    (anthropicTestPrompt cfg.anthropicKey env.anthropic prompt modelId,
     [AdapterCall.anthropicCall prompt modelId])
  else
    ({ success := false, model := modelId, provider := "Unknown", prompt := prompt,
       response := none,
       errorMessage := some ("Unsupported model: " ++ modelId),
       errorCode := some "UNSUPPORTED_MODEL",
       responseTimeMs := 0,
       tokensPrompt := none, tokensCompletion := none, tokensTotal := none,
       costInput := none, costOutput := none, costTotal := none,
       timestamp := env.timestamp }, [])

/-- Sequential dispatch loop: one result per model id, in order, with the
adapter-invocation log accumulated left to right. -/
def runModels (cfg : Config) (env : Nat → StepEnv) (prompt : String) :
    Nat → List String → List ModelResult × List AdapterCall
  | _, [] => ([], [])
  | i, m :: ms =>
      let step := routeModel cfg (env i) prompt m
      let rest := runModels cfg env prompt (i + 1) ms
      (step.1 :: rest.1, step.2 ++ rest.2)

/-- Batch summary computed after the loop, mirroring the summary object of
the route handler. -/
structure BatchSummary where
  totalModels : Nat
  successfulModels : Nat
  failedModels : Nat
  totalTokens : Nat
  totalCost : ℚ
  avgResponseTimeMs : Nat
  deriving DecidableEq

/-- Summary-statistics computation of the route handler: filter the
successful results, fold their token/cost/latency fields exactly as the
reduce calls of the source do, round the cost to six decimals, and round
the mean latency (0 with no successes). -/
def summarize (modelCount : Nat) (results : List ModelResult) : BatchSummary :=
  let successfulResults := results.filter (fun r => r.success)
  let failedResults := results.filter (fun r => !r.success)
  let totalTokens := successfulResults.foldl (fun sum r => sum + r.tokensTotal.getD 0) 0
  let totalCostRaw : ℚ := successfulResults.foldl (fun sum r => sum + r.costTotal.getD 0) 0
  let avgResponseTime :=
    if successfulResults.length > 0 then
      (jsRound ((successfulResults.foldl (fun sum r => sum + (r.responseTimeMs : ℚ)) 0) /
        (successfulResults.length : ℚ))).toNat
    else 0
  { totalModels := modelCount,
    successfulModels := successfulResults.length,
    failedModels := failedResults.length,
    totalTokens := totalTokens,
    totalCost := round6 totalCostRaw,
    avgResponseTimeMs := avgResponseTime }

/-- Request body of POST /api/prompts/test (fields the core logic reads). -/
structure PromptRequest where
  prompt : String
  models : List String

/-- Validation failures of the route handler, each surfaced as HTTP 400. -/
inductive ValidationError where
  | emptyPrompt
  | emptyModels
  deriving DecidableEq

/-- Successful dispatch outcome: the ordered results and the summary. -/
structure DispatchOk where
  results : List ModelResult
  summary : BatchSummary

/-- Full dispatch outcome: the HTTP-level response (validation error or
results plus summary) together with the adapter-invocation log. -/
structure DispatchOutput where
  response : Except ValidationError DispatchOk
  calls : List AdapterCall

/-- Embedding of the POST /api/prompts/test handler: validate the prompt
(JS truthiness of prompt and prompt.trim()) and the models list, then run
the sequential loop and compute the summary. A validation failure returns
before the loop, so the invocation log is empty. -/
def dispatch (cfg : Config) (env : Nat → StepEnv) (req : PromptRequest) : DispatchOutput :=
  if req.prompt = "" ∨ jsTrim req.prompt = "" then
    ⟨Except.error ValidationError.emptyPrompt, []⟩
  else if req.models = [] then
    ⟨Except.error ValidationError.emptyModels, []⟩
  else
    let run := runModels cfg env req.prompt 0 req.models
    ⟨Except.ok ⟨run.1, summarize req.models.length run.1⟩, run.2⟩

/-- Results component of a dispatch outcome, empty on validation failure. -/
def dispatchResults (o : DispatchOutput) : List ModelResult :=
  match o.response with
  | Except.ok d => d.results
  | Except.error _ => []

/-- Concrete keyless configuration (the default deployment: no API key for
either provider). -/
def cfg0 : Config := ⟨false, false⟩

/-- Concrete configuration with an OpenAI key configured. -/
def cfgLive : Config := ⟨true, false⟩

/-- Concrete adapter environment with all random draws zero and a failing
API outcome with an empty message. -/
def envO0 : OpenAIEnv := ⟨0, 0, 0, Except.error "", 0, 0⟩

/-- Concrete OpenAI adapter environment whose API call rejects with the
message boom. -/
def envOBoom : OpenAIEnv := ⟨0, 0, 0, Except.error "boom", 0, 0⟩

/-- Concrete Anthropic adapter environment with zero random draws. -/
def envA0 : AnthropicEnv := ⟨0, 0, 0, 0⟩

/-- Concrete per-iteration environment built from the zero environments. -/
def step0 : StepEnv := ⟨envO0, envA0, 0⟩

/-- Constant iteration-environment family built from step0. -/
def denv0 : Nat → StepEnv := fun _ => step0

/-- Constant iteration-environment family whose OpenAI API call rejects
with the message boom. -/
def denvBoom : Nat → StepEnv := fun _ => ⟨envOBoom, envA0, 0⟩

theorem startsWith_gpt_dash_includes_gpt (s : String) (h : jsStartsWith s "gpt-" = true) :
    jsIncludes s "gpt" = true := by
  simp only [jsStartsWith, decide_eq_true_eq] at h
  obtain ⟨t, ht⟩ := h
  simp only [jsIncludes, decide_eq_true_eq]
  refine ⟨[], '-' :: t, ?_⟩
  simpa using ht

theorem includes_gpt_false_gpt_dash (s : String) (hg : jsIncludes s "gpt" = false) :
    jsStartsWith s "gpt-" = false := by
  cases h : jsStartsWith s "gpt-" with
  | false => rfl
  | true =>
      have hinc := startsWith_gpt_dash_includes_gpt s h
      rw [hg] at hinc
      exact Bool.noConfusion hinc

theorem openaiTestPrompt_model (hk : Bool) (env : OpenAIEnv) (p m : String) :
    (openaiTestPrompt hk env p m).model = m := by
  unfold openaiTestPrompt
  split
  · rfl
  · split <;> rfl

theorem anthropicTestPrompt_model (hk : Bool) (env : AnthropicEnv) (p m : String) :
    (anthropicTestPrompt hk env p m).model = m := by
  unfold anthropicTestPrompt
  split <;> rfl

theorem openaiTestPrompt_mock_success (env : OpenAIEnv) (p m : String) :
    (openaiTestPrompt false env p m).success = true := rfl

theorem anthropicTestPrompt_success (hk : Bool) (env : AnthropicEnv) (p m : String) :
    (anthropicTestPrompt hk env p m).success = true := by
  unfold anthropicTestPrompt
  split <;> rfl

theorem routeModel_model (cfg : Config) (e : StepEnv) (p m : String) :
    (routeModel cfg e p m).1.model = m := by
  unfold routeModel
  split
  · exact openaiTestPrompt_model cfg.openaiKey e.openai p m
  · split
    · exact anthropicTestPrompt_model cfg.anthropicKey e.anthropic p m
    · rfl

theorem runModels_map_model (cfg : Config) (env : Nat → StepEnv) (p : String)
    (ms : List String) : ∀ i : Nat, ((runModels cfg env p i ms).1.map (fun r => r.model)) = ms := by
  induction ms with
  | nil => intro i; rfl
  | cons m ms ih =>
      intro i
      simp only [runModels, List.map_cons, routeModel_model, ih]

theorem runModels_length (cfg : Config) (env : Nat → StepEnv) (p : String)
    (ms : List String) (i : Nat) : (runModels cfg env p i ms).1.length = ms.length := by
  have h := congrArg List.length (runModels_map_model cfg env p ms i)
  simpa using h

theorem jsTrim_empty : jsTrim "" = "" := rfl

theorem dispatch_ok (cfg : Config) (env : Nat → StepEnv) (req : PromptRequest)
    (hp : jsTrim req.prompt ≠ "") (hm : req.models ≠ []) :
    dispatch cfg env req =
      ⟨Except.ok ⟨(runModels cfg env req.prompt 0 req.models).1,
        summarize req.models.length (runModels cfg env req.prompt 0 req.models).1⟩,
       (runModels cfg env req.prompt 0 req.models).2⟩ := by
  have hne : ¬(req.prompt = "" ∨ jsTrim req.prompt = "") := by
    rintro (h | h)
    · exact hp (by rw [h, jsTrim_empty])
    · exact hp h
  unfold dispatch
  rw [if_neg hne, if_neg hm]

theorem length_filter_partition {α : Type} (l : List α) (p : α → Bool) :
    (l.filter p).length + (l.filter (fun a => !p a)).length = l.length := by
  induction l with
  | nil => rfl
  | cons a l ih =>
      by_cases h : p a = true <;> simp [List.filter_cons, h, ← ih] <;> omega

theorem foldl_add_map {α M : Type} [AddCommMonoid M] (f : α → M) (l : List α) (init : M) :
    l.foldl (fun s r => s + f r) init = init + (l.map f).sum := by
  induction l generalizing init with
  | nil => simp
  | cons a l ih => simp [ih, add_assoc]

theorem round6_zero : round6 0 = 0 := by
  have h : ⌊(0 : ℚ) * 1000000 + 1 / 2⌋ = 0 := by
    rw [Int.floor_eq_zero_iff]
    constructor <;> norm_num
  unfold round6
  rw [h]
  norm_num

theorem runModels_mem_imp (cfg : Config) (env : Nat → StepEnv) (p : String)
    (P : ModelResult → Prop)
    (hroute : ∀ (e : StepEnv) (m : String), P (routeModel cfg e p m).1) :
    ∀ (ms : List String) (i : Nat) (r : ModelResult),
      r ∈ (runModels cfg env p i ms).1 → P r := by
  intro ms
  induction ms with
  | nil => intro i r h; simp [runModels] at h
  | cons m ms ih =>
      intro i r h
      simp only [runModels, List.mem_cons] at h
      rcases h with h | h
      · rw [h]; exact hroute (env i) m
      · exact ih (i + 1) r h

/-- Claim C1: for every request with a non-empty (after trimming) prompt
and a non-empty models list, dispatch returns exactly one ModelResult per
requested model id, in exactly the same order as the input models list. -/
theorem claim1_one_result_per_model_in_order (cfg : Config) (env : Nat → StepEnv)
    (req : PromptRequest) (hp : jsTrim req.prompt ≠ "") (hm : req.models ≠ []) :
    ∃ ok : DispatchOk, (dispatch cfg env req).response = Except.ok ok ∧
      ok.results.map (fun r => r.model) = req.models ∧
      ok.results.length = req.models.length := by
  refine ⟨⟨(runModels cfg env req.prompt 0 req.models).1,
    summarize req.models.length (runModels cfg env req.prompt 0 req.models).1⟩, ?_, ?_, ?_⟩
  · rw [dispatch_ok cfg env req hp hm]
  · exact runModels_map_model cfg env req.prompt req.models 0
  · exact runModels_length cfg env req.prompt req.models 0

/-- Witness for claim C1 at a concrete request with one routed and one
unsupported model id. -/
theorem claim1_one_result_per_model_in_order_witness :
    ∃ ok : DispatchOk,
      (dispatch cfg0 denv0 ⟨"Hello", ["gpt-4", "mystery"]⟩).response = Except.ok ok ∧
      ok.results.map (fun r => r.model) = ["gpt-4", "mystery"] ∧
      ok.results.length = 2 :=
  claim1_one_result_per_model_in_order cfg0 denv0 ⟨"Hello", ["gpt-4", "mystery"]⟩
    (by decide) (by decide)

/-- Claim C2: a request whose prompt is empty or whitespace-only, or whose
models list is empty, fails validation with an HTTP 400 error, produces no
results, and never invokes any provider adapter. -/
theorem claim2_validation_failure (cfg : Config) (env : Nat → StepEnv)
    (req : PromptRequest) (h : jsTrim req.prompt = "" ∨ req.models = []) :
    (∃ e, (dispatch cfg env req).response = Except.error e) ∧
      dispatchResults (dispatch cfg env req) = [] ∧
      (dispatch cfg env req).calls = [] := by
  unfold dispatch
  by_cases hp : req.prompt = "" ∨ jsTrim req.prompt = ""
  · rw [if_pos hp]
    exact ⟨⟨ValidationError.emptyPrompt, rfl⟩, rfl, rfl⟩
  · have hm : req.models = [] := by
      rcases h with h | h
      · exact absurd (Or.inr h) hp
      · exact h
    rw [if_neg hp, if_pos hm]
    exact ⟨⟨ValidationError.emptyModels, rfl⟩, rfl, rfl⟩

/-- Witness for claim C2 at a concrete whitespace-only prompt. -/
theorem claim2_validation_failure_witness :
    (∃ e, (dispatch cfg0 denv0 ⟨"   ", ["gpt-4"]⟩).response = Except.error e) ∧
      dispatchResults (dispatch cfg0 denv0 ⟨"   ", ["gpt-4"]⟩) = [] ∧
      (dispatch cfg0 denv0 ⟨"   ", ["gpt-4"]⟩).calls = [] :=
  claim2_validation_failure cfg0 denv0 ⟨"   ", ["gpt-4"]⟩ (Or.inl (by decide))

/-- Claim C3: a model id that neither contains gpt nor starts with claude-
produces a failure ModelResult with errorCode UNSUPPORTED_MODEL and zero
response time, with no adapter invocation, and the batch still yields one
result per requested model. -/
theorem claim3_unsupported_model (cfg : Config) (e : StepEnv) (p id : String)
    (hg : jsIncludes id "gpt" = false) (hc : jsStartsWith id "claude-" = false)
    (env : Nat → StepEnv) (req : PromptRequest)
    (hp : jsTrim req.prompt ≠ "") (hm : req.models ≠ []) :
    (routeModel cfg e p id).1.success = false ∧
    (routeModel cfg e p id).1.errorCode = some "UNSUPPORTED_MODEL" ∧
    (routeModel cfg e p id).1.responseTimeMs = 0 ∧
    (routeModel cfg e p id).2 = [] ∧
    ∃ ok : DispatchOk, (dispatch cfg env req).response = Except.ok ok ∧
      ok.results.length = req.models.length := by
  have hgd := includes_gpt_false_gpt_dash id hg
  have hroute : routeModel cfg e p id =
      ({ success := false, model := id, provider := "Unknown", prompt := p,
         response := none,
         errorMessage := some ("Unsupported model: " ++ id),
         errorCode := some "UNSUPPORTED_MODEL",
         responseTimeMs := 0,
         tokensPrompt := none, tokensCompletion := none, tokensTotal := none,
         costInput := none, costOutput := none, costTotal := none,
         timestamp := e.timestamp }, []) := by
    unfold routeModel
    rw [hgd, hg, hc]
    rfl
  refine ⟨by rw [hroute], by rw [hroute], by rw [hroute], by rw [hroute], ?_⟩
  refine ⟨⟨(runModels cfg env req.prompt 0 req.models).1,
    summarize req.models.length (runModels cfg env req.prompt 0 req.models).1⟩, ?_, ?_⟩
  · rw [dispatch_ok cfg env req hp hm]
  · exact runModels_length cfg env req.prompt req.models 0

/-- Witness for claim C3 at the concrete unsupported id mystery. -/
theorem claim3_unsupported_model_witness :
    (routeModel cfg0 step0 "Hello" "mystery").1.success = false ∧
    (routeModel cfg0 step0 "Hello" "mystery").1.errorCode = some "UNSUPPORTED_MODEL" ∧
    (routeModel cfg0 step0 "Hello" "mystery").1.responseTimeMs = 0 ∧
    (routeModel cfg0 step0 "Hello" "mystery").2 = [] ∧
    ∃ ok : DispatchOk,
      (dispatch cfg0 denv0 ⟨"Hello", ["gpt-4", "mystery"]⟩).response = Except.ok ok ∧
      ok.results.length = 2 :=
  claim3_unsupported_model cfg0 step0 "Hello" "mystery" (by decide) (by decide)
    denv0 ⟨"Hello", ["gpt-4", "mystery"]⟩ (by decide) (by decide)

/-- Claim C4: the summary of every dispatched batch satisfies totalModels
equal to the number of results and successfulModels plus failedModels
equal to totalModels. -/
theorem claim4_summary_counts (cfg : Config) (env : Nat → StepEnv)
    (req : PromptRequest) (hp : jsTrim req.prompt ≠ "") (hm : req.models ≠ []) :
    ∃ ok : DispatchOk, (dispatch cfg env req).response = Except.ok ok ∧
      ok.summary.totalModels = ok.results.length ∧
      ok.summary.successfulModels + ok.summary.failedModels = ok.summary.totalModels := by
  refine ⟨⟨(runModels cfg env req.prompt 0 req.models).1,
    summarize req.models.length (runModels cfg env req.prompt 0 req.models).1⟩, ?_, ?_, ?_⟩
  · rw [dispatch_ok cfg env req hp hm]
  · simp only [summarize]
    exact (runModels_length cfg env req.prompt req.models 0).symm
  · simp only [summarize]
    exact (length_filter_partition (runModels cfg env req.prompt 0 req.models).1
      (fun r => r.success)).trans (runModels_length cfg env req.prompt req.models 0)

/-- Witness for claim C4 at a concrete two-model request. -/
theorem claim4_summary_counts_witness :
    ∃ ok : DispatchOk,
      (dispatch cfg0 denv0 ⟨"Hello", ["gpt-4", "mystery"]⟩).response = Except.ok ok ∧
      ok.summary.totalModels = ok.results.length ∧
      ok.summary.successfulModels + ok.summary.failedModels = ok.summary.totalModels :=
  claim4_summary_counts cfg0 denv0 ⟨"Hello", ["gpt-4", "mystery"]⟩ (by decide) (by decide)

/-- Claim C5: the summary totalCost of every dispatched batch is the sum
of costTotal over the successful results only, rounded to six decimal
places, and with zero successes both totalCost and avgResponseTimeMs are
zero. -/
theorem claim5_total_cost (cfg : Config) (env : Nat → StepEnv)
    (req : PromptRequest) (hp : jsTrim req.prompt ≠ "") (hm : req.models ≠ []) :
    ∃ ok : DispatchOk, (dispatch cfg env req).response = Except.ok ok ∧
      ok.summary.totalCost =
        round6 (((ok.results.filter (fun r => r.success)).map
          (fun r => r.costTotal.getD 0)).sum) ∧
      ((ok.results.filter (fun r => r.success)).length = 0 →
        ok.summary.totalCost = 0 ∧ ok.summary.avgResponseTimeMs = 0) := by
  refine ⟨⟨(runModels cfg env req.prompt 0 req.models).1,
    summarize req.models.length (runModels cfg env req.prompt 0 req.models).1⟩, ?_, ?_, ?_⟩
  · rw [dispatch_ok cfg env req hp hm]
  · simp only [summarize]
    rw [foldl_add_map, zero_add]
  · intro h0
    have hnil := List.length_eq_zero.mp h0
    constructor
    · simp only [summarize]
      rw [hnil]
      simpa using round6_zero
    · simp only [summarize]
      rw [hnil]
      simp

/-- Witness for claim C5 at a concrete two-model request. -/
theorem claim5_total_cost_witness :
    ∃ ok : DispatchOk,
      (dispatch cfg0 denv0 ⟨"Hello", ["gpt-4", "mystery"]⟩).response = Except.ok ok ∧
      ok.summary.totalCost =
        round6 (((ok.results.filter (fun r => r.success)).map
          (fun r => r.costTotal.getD 0)).sum) ∧
      ((ok.results.filter (fun r => r.success)).length = 0 →
        ok.summary.totalCost = 0 ∧ ok.summary.avgResponseTimeMs = 0) :=
  claim5_total_cost cfg0 denv0 ⟨"Hello", ["gpt-4", "mystery"]⟩ (by decide) (by decide)

/-- Claim C6: the summary totalTokens of every dispatched batch is the sum
of tokensTotal over the successful results (0 where absent), and
avgResponseTimeMs is the rounded arithmetic mean of responseTimeMs over
the successful results, or 0 when there are no successes. -/
theorem claim6_tokens_and_average (cfg : Config) (env : Nat → StepEnv)
    (req : PromptRequest) (hp : jsTrim req.prompt ≠ "") (hm : req.models ≠ []) :
    ∃ ok : DispatchOk, (dispatch cfg env req).response = Except.ok ok ∧
      ok.summary.totalTokens =
        ((ok.results.filter (fun r => r.success)).map
          (fun r => r.tokensTotal.getD 0)).sum ∧
      (0 < (ok.results.filter (fun r => r.success)).length →
        ok.summary.avgResponseTimeMs =
          (jsRound ((((ok.results.filter (fun r => r.success)).map
            (fun r => (r.responseTimeMs : ℚ))).sum) /
            ((ok.results.filter (fun r => r.success)).length : ℚ))).toNat) ∧
      ((ok.results.filter (fun r => r.success)).length = 0 →
        ok.summary.avgResponseTimeMs = 0) := by
  refine ⟨⟨(runModels cfg env req.prompt 0 req.models).1,
    summarize req.models.length (runModels cfg env req.prompt 0 req.models).1⟩, ?_, ?_, ?_, ?_⟩
  · rw [dispatch_ok cfg env req hp hm]
  · simp only [summarize]
    rw [foldl_add_map, zero_add]
  · intro hpos
    simp only [summarize]
    rw [if_pos hpos, foldl_add_map, zero_add]
  · intro h0
    have h0' : ((runModels cfg env req.prompt 0 req.models).1.filter
        (fun r => r.success)).length = 0 := h0
    simp only [summarize]
    rw [if_neg (by omega)]

/-- Witness for claim C6 at a concrete two-model request. -/
theorem claim6_tokens_and_average_witness :
    ∃ ok : DispatchOk,
      (dispatch cfg0 denv0 ⟨"Hello", ["gpt-4", "mystery"]⟩).response = Except.ok ok ∧
      ok.summary.totalTokens =
        ((ok.results.filter (fun r => r.success)).map
          (fun r => r.tokensTotal.getD 0)).sum ∧
      (0 < (ok.results.filter (fun r => r.success)).length →
        ok.summary.avgResponseTimeMs =
          (jsRound ((((ok.results.filter (fun r => r.success)).map
            (fun r => (r.responseTimeMs : ℚ))).sum) /
            ((ok.results.filter (fun r => r.success)).length : ℚ))).toNat) ∧
      ((ok.results.filter (fun r => r.success)).length = 0 →
        ok.summary.avgResponseTimeMs = 0) :=
  claim6_tokens_and_average cfg0 denv0 ⟨"Hello", ["gpt-4", "mystery"]⟩ (by decide) (by decide)

/-- Counterexample to claim C7 as stated: the id claude-gpt starts with
claude-, yet dispatch routes it to the OpenAI adapter, because the gpt
classifier is checked first and the id also contains gpt. -/
theorem claim7_counterexample :
    jsStartsWith "claude-gpt" "claude-" = true ∧
    (dispatch cfg0 denv0 ⟨"Hello", ["claude-gpt"]⟩).calls =
      [AdapterCall.openaiCall "Hello" "claude-gpt"] ∧
    (dispatch cfg0 denv0 ⟨"Hello", ["claude-gpt"]⟩).calls ≠
      [AdapterCall.anthropicCall "Hello" "claude-gpt"] := by
  refine ⟨by decide, by decide, by decide⟩

/-- Claim C7 (amended): every id starting with gpt- or containing gpt is
routed to the OpenAI adapter, and every id that starts with claude- and
does not contain gpt is routed to the Anthropic adapter. -/
theorem claim7_amended_routing (cfg : Config) (env : StepEnv) (p id : String) :
    (jsIncludes id "gpt" = true →
      (routeModel cfg env p id).2 = [AdapterCall.openaiCall p id]) ∧
    (jsStartsWith id "gpt-" = true →
      (routeModel cfg env p id).2 = [AdapterCall.openaiCall p id]) ∧
    (jsStartsWith id "claude-" = true → jsIncludes id "gpt" = false →
      (routeModel cfg env p id).2 = [AdapterCall.anthropicCall p id]) := by
  refine ⟨?_, ?_, ?_⟩
  · intro h
    unfold routeModel
    rw [h, Bool.or_true]
    rfl
  · intro h
    unfold routeModel
    rw [h, Bool.true_or]
    rfl
  · intro hc hg
    have hgd := includes_gpt_false_gpt_dash id hg
    unfold routeModel
    rw [hgd, hg, hc]
    rfl

/-- Witness for the amended claim C7 at the concrete ids gpt-4 and
claude-3-opus-20240229. -/
theorem claim7_amended_routing_witness :
    (routeModel cfg0 step0 "Hi" "gpt-4").2 = [AdapterCall.openaiCall "Hi" "gpt-4"] ∧
    (routeModel cfg0 step0 "Hi" "claude-3-opus-20240229").2 =
      [AdapterCall.anthropicCall "Hi" "claude-3-opus-20240229"] :=
  ⟨(claim7_amended_routing cfg0 step0 "Hi" "gpt-4").1 (by decide),
   (claim7_amended_routing cfg0 step0 "Hi" "claude-3-opus-20240229").2.2
     (by decide) (by decide)⟩

/-- Claim C8: an upstream API error inside the OpenAI adapter is caught
and returned as the failure variant whose errorMessage is the underlying
error message, the Anthropic adapter never returns a failure at all, and
a dispatched batch always yields one result per model regardless of
adapter outcomes, so one failure never aborts the batch. -/
theorem claim8_adapter_failures_caught (p m msg : String) (envO : OpenAIEnv)
    (h : envO.apiOutcome = Except.error msg)
    (cfg : Config) (env : Nat → StepEnv) (req : PromptRequest)
    (hp : jsTrim req.prompt ≠ "") (hm : req.models ≠ []) :
    (openaiTestPrompt true envO p m).success = false ∧
    (openaiTestPrompt true envO p m).errorMessage = some msg ∧
    (∀ (hk : Bool) (envA : AnthropicEnv), (anthropicTestPrompt hk envA p m).success = true) ∧
    ∃ ok : DispatchOk, (dispatch cfg env req).response = Except.ok ok ∧
      ok.results.length = req.models.length := by
  have hopen : openaiTestPrompt true envO p m =
      { success := false, model := m, provider := "OpenAI", prompt := p,
        response := none,
        errorMessage := some msg, errorCode := none,
        responseTimeMs := envO.elapsedMs,
        tokensPrompt := none, tokensCompletion := none, tokensTotal := none,
        costInput := none, costOutput := none, costTotal := none,
        timestamp := envO.timestamp } := by
    unfold openaiTestPrompt
    rw [h]
    rfl
  refine ⟨by rw [hopen], by rw [hopen],
    fun hk envA => anthropicTestPrompt_success hk envA p m, ?_⟩
  refine ⟨⟨(runModels cfg env req.prompt 0 req.models).1,
    summarize req.models.length (runModels cfg env req.prompt 0 req.models).1⟩, ?_, ?_⟩
  · rw [dispatch_ok cfg env req hp hm]
  · exact runModels_length cfg env req.prompt req.models 0

/-- Witness for claim C8 with a rejected API call carrying the message
boom, in a batch that still returns both results. -/
theorem claim8_adapter_failures_caught_witness :
    (openaiTestPrompt true envOBoom "Hello" "gpt-4").success = false ∧
    (openaiTestPrompt true envOBoom "Hello" "gpt-4").errorMessage = some "boom" ∧
    (∀ (hk : Bool) (envA : AnthropicEnv),
      (anthropicTestPrompt hk envA "Hello" "gpt-4").success = true) ∧
    ∃ ok : DispatchOk,
      (dispatch cfgLive denvBoom
        ⟨"Hello", ["gpt-4", "claude-3-opus-20240229"]⟩).response = Except.ok ok ∧
      ok.results.length = 2 :=
  claim8_adapter_failures_caught "Hello" "gpt-4" "boom" envOBoom rfl
    cfgLive denvBoom ⟨"Hello", ["gpt-4", "claude-3-opus-20240229"]⟩ (by decide) (by decide)

theorem openaiTestPrompt_failure_shape (hk : Bool) (env : OpenAIEnv) (p m : String)
    (hfail : (openaiTestPrompt hk env p m).success = false) :
    (openaiTestPrompt hk env p m).errorMessage.isSome = true ∧
    (openaiTestPrompt hk env p m).errorCode = none ∧
    (openaiTestPrompt hk env p m).provider = "OpenAI" := by
  revert hfail
  unfold openaiTestPrompt
  split
  · intro hfail
    simp at hfail
  · split
    · intro hfail
      simp at hfail
    · intro _
      exact ⟨rfl, rfl, rfl⟩

theorem routeModel_failure_shape (cfg : Config) (e : StepEnv) (p m : String) :
    (routeModel cfg e p m).1.success = false →
      (routeModel cfg e p m).1.errorMessage.isSome = true ∧
      (((routeModel cfg e p m).1.provider = "Unknown" ∧
        (routeModel cfg e p m).1.errorCode = some "UNSUPPORTED_MODEL") ∨
       ((routeModel cfg e p m).1.provider = "OpenAI" ∧
        (routeModel cfg e p m).1.errorCode = none)) := by
  unfold routeModel
  split
  · intro hfail
    have hs := openaiTestPrompt_failure_shape cfg.openaiKey e.openai p m hfail
    exact ⟨hs.1, Or.inr ⟨hs.2.2, hs.2.1⟩⟩
  · split
    · intro hfail
      have hfail' : (anthropicTestPrompt cfg.anthropicKey e.anthropic p m).success = false :=
        hfail
      rw [anthropicTestPrompt_success] at hfail'
      exact Bool.noConfusion hfail'
    · intro _
      exact ⟨rfl, Or.inl ⟨rfl, rfl⟩⟩

/-- Counterexample to claim C9 as stated: with an OpenAI key configured
and the upstream call rejecting with the message boom, the dispatched
batch contains a failure ModelResult whose errorCode is absent, not a
member of the error-code enumeration. -/
theorem claim9_counterexample :
    (dispatchResults (dispatch cfgLive denvBoom ⟨"Hello", ["gpt-4"]⟩)).map
      (fun r => (r.success, r.errorMessage, r.errorCode)) =
      [(false, some "boom", none)] ∧
    ∀ r ∈ dispatchResults (dispatch cfgLive denvBoom ⟨"Hello", ["gpt-4"]⟩),
      r.success = false ∧ r.errorCode = none := by
  refine ⟨by decide, by decide⟩

/-- Claim C9 (amended): every failure ModelResult in a dispatched batch
carries an errorMessage string; a failure produced for an unsupported
model id carries errorCode UNSUPPORTED_MODEL and provider Unknown, while
a failure produced by the OpenAI adapter carries no errorCode field. -/
theorem claim9_amended_failure_fields (cfg : Config) (env : Nat → StepEnv)
    (req : PromptRequest) (hp : jsTrim req.prompt ≠ "") (hm : req.models ≠ []) :
    ∃ ok : DispatchOk, (dispatch cfg env req).response = Except.ok ok ∧
      ∀ r ∈ ok.results, r.success = false →
        r.errorMessage.isSome = true ∧
        ((r.provider = "Unknown" ∧ r.errorCode = some "UNSUPPORTED_MODEL") ∨
         (r.provider = "OpenAI" ∧ r.errorCode = none)) := by
  refine ⟨⟨(runModels cfg env req.prompt 0 req.models).1,
    summarize req.models.length (runModels cfg env req.prompt 0 req.models).1⟩, ?_, ?_⟩
  · rw [dispatch_ok cfg env req hp hm]
  · intro r hr
    exact runModels_mem_imp cfg env req.prompt
      (fun r => r.success = false →
        r.errorMessage.isSome = true ∧
        ((r.provider = "Unknown" ∧ r.errorCode = some "UNSUPPORTED_MODEL") ∨
         (r.provider = "OpenAI" ∧ r.errorCode = none)))
      (fun e m => routeModel_failure_shape cfg e req.prompt m)
      req.models 0 r hr

/-- Witness for the amended claim C9 at a concrete batch containing an
adapter failure and an unsupported id. -/
theorem claim9_amended_failure_fields_witness :
    ∃ ok : DispatchOk,
      (dispatch cfgLive denvBoom ⟨"Hello", ["gpt-4", "mystery"]⟩).response = Except.ok ok ∧
      ∀ r ∈ ok.results, r.success = false →
        r.errorMessage.isSome = true ∧
        ((r.provider = "Unknown" ∧ r.errorCode = some "UNSUPPORTED_MODEL") ∨
         (r.provider = "OpenAI" ∧ r.errorCode = none)) :=
  claim9_amended_failure_fields cfgLive denvBoom ⟨"Hello", ["gpt-4", "mystery"]⟩
    (by decide) (by decide)

theorem routeModel_noKey_unsupported (ak : Bool) (e : StepEnv) (p m : String) :
    (routeModel ⟨false, ak⟩ e p m).1.success = false →
    (routeModel ⟨false, ak⟩ e p m).1.errorCode = some "UNSUPPORTED_MODEL" := by
  unfold routeModel
  split
  · intro hfail
    have hfail' : (openaiTestPrompt false e.openai p m).success = false := hfail
    rw [openaiTestPrompt_mock_success] at hfail'
    exact Bool.noConfusion hfail'
  · split
    · intro hfail
      have hfail' : (anthropicTestPrompt (Config.mk false ak).anthropicKey
          e.anthropic p m).success = false := hfail
      rw [anthropicTestPrompt_success] at hfail'
      exact Bool.noConfusion hfail'
    · intro _
      rfl

/-- Claim C10: with no OpenAI key the OpenAI adapter always returns the
success variant, the Anthropic adapter always returns a simulated success
whether or not a key is configured, and in a keyless configuration every
failure result of a dispatched batch is an unsupported-model failure. -/
theorem claim10_keyless_always_success (envO : OpenAIEnv) (hk ak : Bool)
    (envA : AnthropicEnv) (p m : String) (env : Nat → StepEnv) (req : PromptRequest)
    (hp : jsTrim req.prompt ≠ "") (hm : req.models ≠ []) :
    (openaiTestPrompt false envO p m).success = true ∧
    (anthropicTestPrompt hk envA p m).success = true ∧
    ∃ ok : DispatchOk, (dispatch ⟨false, ak⟩ env req).response = Except.ok ok ∧
      ∀ r ∈ ok.results, r.success = false → r.errorCode = some "UNSUPPORTED_MODEL" := by
  refine ⟨openaiTestPrompt_mock_success envO p m,
    anthropicTestPrompt_success hk envA p m, ?_⟩
  refine ⟨⟨(runModels ⟨false, ak⟩ env req.prompt 0 req.models).1,
    summarize req.models.length (runModels ⟨false, ak⟩ env req.prompt 0 req.models).1⟩, ?_, ?_⟩
  · rw [dispatch_ok ⟨false, ak⟩ env req hp hm]
  · intro r hr
    exact runModels_mem_imp ⟨false, ak⟩ env req.prompt
      (fun r => r.success = false → r.errorCode = some "UNSUPPORTED_MODEL")
      (fun e m => routeModel_noKey_unsupported ak e req.prompt m)
      req.models 0 r hr

/-- Witness for claim C10 at a concrete keyless batch with one routed and
one unsupported model id. -/
theorem claim10_keyless_always_success_witness :
    (openaiTestPrompt false envO0 "Hello" "gpt-4").success = true ∧
    (anthropicTestPrompt true envA0 "Hello" "gpt-4").success = true ∧
    ∃ ok : DispatchOk,
      (dispatch ⟨false, false⟩ denv0 ⟨"Hello", ["gpt-4", "mystery"]⟩).response = Except.ok ok ∧
      ∀ r ∈ ok.results, r.success = false → r.errorCode = some "UNSUPPORTED_MODEL" :=
  claim10_keyless_always_success envO0 true false envA0 "Hello" "gpt-4" denv0
    ⟨"Hello", ["gpt-4", "mystery"]⟩ (by decide) (by decide)
